import Mathlib

/-!
Shallow embedding of the `dali_interface` package (DALI lighting-control bus
driver) and verification of its specification claims.

Modules embedded:
- `dali_interface.py`: `DaliStatus` (IntEnum), `DaliFrame` (NamedTuple),
  `DaliInterface.build_command_string`, `DaliInterface.get`.
- `serial.py`: `DaliSerial.__get_status_and_last_error` (status classifier),
  `DaliSerial.parse` (line decoder), `DaliSerial._check_loopback`,
  `DaliSerial.transmit`, `DaliSerial.query_reply`.

Python `int` is modelled as `Int` (arbitrary precision), Python `float`
timestamps as `Rat` (the claims only compare timestamps with zero, which is
insensitive to binary-float rounding), Python strings as `String`/`List Char`
over their code points (ASCII in all wire traffic).  Side effects (queue
operations, serial writes, logging) are modelled as explicit action traces,
and exceptions as `Option`/`Except` results.
-/

/-- Embedding of `DaliStatus` (`dali_interface.py`): the closed status
enumeration.  Only identity comparison is used by the code. -/
inductive DaliStatus where
  | OK
  | LOOPBACK
  | FRAME
  | TIMEOUT
  | TIMING
  | INTERFACE
  | FAILURE
  | RECOVER
  | GENERAL
  | UNDEFINED
deriving DecidableEq, Repr

/-- Embedding of the `DaliFrame` NamedTuple (`dali_interface.py`), with the
same field names and default values (`timestamp=0`, `length=0`, `data=0`,
`priority=2`, `send_twice=False`, `status=DaliStatus.OK`, `message="OK"`). -/
structure DaliFrame where
  timestamp : Rat := 0
  length : Int := 0
  data : Int := 0
  priority : Int := 2
  send_twice : Bool := false
  status : DaliStatus := DaliStatus.OK
  message : String := "OK"
deriving DecidableEq, Repr

/-- Uppercase hexadecimal digit for a value below 16, as Python emits for
the `X` format code. -/
def hexDigitU (n : Nat) : Char :=
  if n < 10 then Char.ofNat (48 + n) else Char.ofNat (55 + n)

/-- Uppercase hexadecimal digit list of a natural number, most significant
first, with no leading zeros (`natHexAux fuel n`; the fuel argument only
drives structural recursion and `n + 1` steps always suffice). -/
def natHexAux : Nat → Nat → List Char
  | 0, _ => []
  | fuel + 1, n =>
    if n < 16 then [hexDigitU n]
    else natHexAux fuel (n / 16) ++ [hexDigitU (n % 16)]

/-- Uppercase hexadecimal digits of a natural number (`"0"` for zero). -/
def natHex (n : Nat) : List Char := natHexAux (n + 1) n

/-- Python `f"{x:X}"` for an `int`: uppercase hexadecimal, no padding, a
leading minus sign for negative values. -/
def pyHexU (x : Int) : String :=
  if x < 0 then String.mk ('-' :: natHex x.natAbs) else String.mk (natHex x.toNat)

/-- Left-pad a digit list with zeros to the given width. -/
def zfillTo (w : Nat) (s : List Char) : List Char :=
  List.replicate (w - s.length) '0' ++ s

/-- Python `f"{x:02X}"`: uppercase hexadecimal zero-padded to width 2, the
sign of a negative value counting toward the width. -/
def pyHex02X (x : Int) : String :=
  if x < 0 then String.mk ('-' :: zfillTo 1 (natHex x.natAbs))
  else String.mk (zfillTo 2 (natHex x.toNat))

/-- Python `x & (2 ^ k - 1)` on arbitrary ints: with an all-ones mask,
two's-complement bitwise AND is exactly the nonnegative remainder mod
`2 ^ k`. -/
def pyAndOnes (x : Int) (k : Nat) : Int := Int.emod x ((2 : Int) ^ k)

/-- Python `x >> k` on arbitrary ints: arithmetic shift, i.e. floor
division by `2 ^ k`. -/
def pyShr (x : Int) (k : Nat) : Int := Int.fdiv x ((2 : Int) ^ k)

namespace DaliSerial

/-- Constant `_MAX_BIT_LENGTH` of `DaliSerial` (`serial.py`). -/
def MAX_BIT_LENGTH : Int := 32

/-- Constant `_TIMEOUT` of `DaliSerial` (`serial.py`). -/
def TIMEOUT_CODE : Int := 0x81

/-- Constant `_BAD_START_BIT_TIMING` of `DaliSerial` (`serial.py`). -/
def BAD_START_BIT_TIMING : Int := 0x82

/-- Constant `_BAD_DATA_BIT_TIMING` of `DaliSerial` (`serial.py`). -/
def BAD_DATA_BIT_TIMING : Int := 0x83

/-- Constant `_COLLISION_LOOPBACK` of `DaliSerial` (`serial.py`). -/
def COLLISION_LOOPBACK : Int := 0x84

/-- Constant `_COLLISION_NO_CHANGE` of `DaliSerial` (`serial.py`). -/
def COLLISION_NO_CHANGE : Int := 0x85

/-- Constant `_COLLISION_WRONG_STATE` of `DaliSerial` (`serial.py`). -/
def COLLISION_WRONG_STATE : Int := 0x86

/-- Constant `_SYSTEM_FAILURE` of `DaliSerial` (`serial.py`). -/
def SYSTEM_FAILURE : Int := 0x91

/-- Constant `_SYSTEM_RECOVERED` of `DaliSerial` (`serial.py`). -/
def SYSTEM_RECOVERED : Int := 0x92

/-- Constant `_COMMAND_NOT_PROCESSED` of `DaliSerial` (`serial.py`). -/
def COMMAND_NOT_PROCESSED : Int := 0xA0

/-- Constant `_COMMAND_BAD_ARGUMENT` of `DaliSerial` (`serial.py`). -/
def COMMAND_BAD_ARGUMENT : Int := 0xA1

/-- Constant `_QUEUE_IS_FULL` of `DaliSerial` (`serial.py`). -/
def QUEUE_IS_FULL : Int := 0xA2

/-- Constant `_COMMAND_BAD` of `DaliSerial` (`serial.py`). -/
def COMMAND_BAD : Int := 0xA3

/-- Embedding of `DaliSerial.__get_status_and_last_error` (`serial.py`,
lines 59-105): the status classifier mapping the raw
(length-field, data-field, loopback-flag) triple to a (status, message)
pair, with the source's decision order and literal code values. -/
def get_status_and_last_error (length data : Int) (loopback : Bool) :
    DaliStatus × String :=
  if 0 ≤ length ∧ length ≤ MAX_BIT_LENGTH then
    if loopback then (DaliStatus.LOOPBACK, "LOOPBACK FRAME")
    else (DaliStatus.FRAME, "NORMAL FRAME")
  else if length < TIMEOUT_CODE then (DaliStatus.OK, "OK")
  else if length = TIMEOUT_CODE then (DaliStatus.TIMEOUT, "TIMEOUT")
  else if length = BAD_START_BIT_TIMING then
    (DaliStatus.TIMING,
      "ERROR TIMING: START - BIT: " ++ toString (pyAndOnes data 8) ++
        " - TIME: " ++ toString (pyAndOnes (pyShr data 8) 20) ++ " USEC")
  else if length = BAD_DATA_BIT_TIMING then
    (DaliStatus.TIMING,
      "ERROR TIMING: DATA - BIT: " ++ toString (pyAndOnes data 8) ++
        " - TIME: " ++ toString (pyAndOnes (pyShr data 8) 20) ++ " USEC")
  else if length = COLLISION_LOOPBACK ∨ length = COLLISION_NO_CHANGE ∨
      length = COLLISION_WRONG_STATE then
    (DaliStatus.TIMING, "ERROR: COLLISION DETECTED")
  else if length = SYSTEM_FAILURE then
    (DaliStatus.FAILURE, "ERROR: SYSTEM FAILURE")
  else if length = SYSTEM_RECOVERED then (DaliStatus.RECOVER, "SYSTEM RECOVER")
  else if length = COMMAND_NOT_PROCESSED ∨ length = COMMAND_BAD_ARGUMENT ∨
      length = QUEUE_IS_FULL ∨ length = COMMAND_BAD then
    (DaliStatus.INTERFACE, "ERROR: INTERFACE")
  else (DaliStatus.UNDEFINED, "ERROR: CODE 0x" ++ pyHex02X length)

end DaliSerial

/-- Whitespace characters stripped by Python `int(s, 16)` around the number
(ASCII subset; the wire traffic of this driver is ASCII). -/
def isPySpace (c : Char) : Bool :=
  c = ' ' || c = '\t' || c = '\n' || c = '\r' || c = '\x0b' || c = '\x0c'

/-- Strip leading and trailing Python whitespace from a character list. -/
def stripPySpace (cs : List Char) : List Char :=
  ((cs.dropWhile isPySpace).reverse.dropWhile isPySpace).reverse

/-- Hexadecimal digit predicate of Python `int(s, 16)`. -/
def isHexChar (c : Char) : Bool :=
  ('0' ≤ c && c ≤ '9') || ('a' ≤ c && c ≤ 'f') || ('A' ≤ c && c ≤ 'F')

/-- Numeric value of a hexadecimal digit character. -/
def hexVal (c : Char) : Nat :=
  if '0' ≤ c ∧ c ≤ '9' then c.toNat - 48
  else if 'a' ≤ c ∧ c ≤ 'f' then c.toNat - 87
  else c.toNat - 55

/-- Continuation of a Python hex-digit run after its first digit: further
digits may be separated by single underscores; a trailing or doubled
underscore is a `ValueError` (`none`). -/
def hexMore : List Char → Nat → Option Nat
  | [], acc => some acc
  | '_' :: rest, acc =>
    match rest with
    | [] => none
    | c :: rest2 =>
      if isHexChar c then hexMore rest2 (acc * 16 + hexVal c) else none
  | c :: rest, acc => if isHexChar c then hexMore rest (acc * 16 + hexVal c) else none

/-- Start of a Python hex-digit run: at least one digit required. -/
def hexStart : List Char → Option Nat
  | [] => none
  | c :: rest => if isHexChar c then hexMore rest (hexVal c) else none

/-- Unsigned part of Python `int(s, 16)`: an optional `0x`/`0X` prefix
(with an optional single underscore after it) followed by a hex-digit run. -/
def pyIntHexCore (cs : List Char) : Option Nat :=
  match cs with
  | '0' :: c :: rest =>
    if c = 'x' || c = 'X' then
      match rest with
      | '_' :: rest2 => hexStart rest2
      | _ => hexStart rest
    else hexStart cs
  | _ => hexStart cs

/-- Python `int(s, 16)`: surrounding whitespace stripped, an optional single
sign, an optional `0x` prefix, then hex digits with single underscores
between digits; `none` models the `ValueError` raised otherwise. -/
def pyIntHex (s : String) : Option Int :=
  match stripPySpace s.toList with
  | '+' :: rest => (pyIntHexCore rest).map fun n => (n : Int)
  | '-' :: rest => (pyIntHexCore rest).map fun n => -(n : Int)
  | cs => (pyIntHexCore cs).map fun n => (n : Int)

/-- Normalise one Python slice bound for a string of the given length:
negative bounds count from the end, then both are clamped to `[0, len]`. -/
def pySliceBound (len : Nat) (i : Int) : Nat :=
  if i < 0 then (i + len).toNat else min i.toNat len

/-- Python string slice `s[a:b]` over code points (never raises). -/
def pySlice (s : List Char) (a b : Int) : List Char :=
  (s.take (pySliceBound s.length b)).drop (pySliceBound s.length a)

/-- Python `s.find(c)` for a single-character needle: index of the first
occurrence, or -1 when absent. -/
def pyFind (s : List Char) (c : Char) : Int :=
  match s.findIdx? (· = c) with
  | some i => (i : Int)
  | none => -1

namespace DaliSerial

/-- Embedding of `DaliSerial.parse` (`serial.py`, lines 107-145): decode one
transport line into a `DaliFrame`.  The locals `timestamp`/`length`/`data`
start at 0 and are assigned one by one inside the `try`; `int(..., 16)`
failures (`ValueError`) are caught and yield the GENERAL "value error" frame
with whatever fields were already assigned.  `payload[8]` raises an uncaught
`IndexError` when the payload has 1 to 8 characters that parse as a hex
number; that escape to the caller is modelled as `none`. -/
def parse (line : String) : Option DaliFrame :=
  let cs := line.toList
  let start := pyFind cs '{' + 1
  let stop := pyFind cs '}'
  let payload := pySlice cs start stop
  match pyIntHex (String.mk (pySlice payload 0 8)) with
  | none => some { status := DaliStatus.GENERAL, message := "value error" }
  | some ts =>
    if payload.length ≤ 8 then none
    else
      let loopback := payload.getD 8 ' ' == '>'
      match pyIntHex (String.mk (pySlice payload 9 11)) with
      | none =>
        some { timestamp := (ts : Rat) / 1000, status := DaliStatus.GENERAL,
               message := "value error" }
      | some length =>
        match pyIntHex (String.mk (pySlice payload 12 20)) with
        | none =>
          some { timestamp := (ts : Rat) / 1000, length := length,
                 status := DaliStatus.GENERAL, message := "value error" }
        | some data =>
          some { timestamp := (ts : Rat) / 1000, length := length, data := data,
                 status := (get_status_and_last_error length data loopback).1,
                 message := (get_status_and_last_error length data loopback).2 }

end DaliSerial

namespace DaliInterface

/-- Constant `RECEIVE_TIMEOUT` of `DaliInterface` (`dali_interface.py`):
timeout in seconds used by the serial binding's `get` calls. -/
def RECEIVE_TIMEOUT : Int := 1

/-- Outcome of the blocking `queue.get(block=True, timeout=...)` call inside
`DaliInterface.get`: either the queue stayed empty for the whole timeout
(Python raises `queue.Empty`), or an item was dequeued — which, the code
allows, may be `None` rather than a frame. -/
inductive QueueGetResult where
  | empty : QueueGetResult
  | item : Option DaliFrame → QueueGetResult
deriving DecidableEq, Repr

/-- Embedding of `DaliInterface.get` (`dali_interface.py`, lines 122-147),
with the queue interaction abstracted to its observable outcome.  The code
first checks `keep_running` and raises `Exception("read thread is not
running")` (`Except.error`) when the receive thread is not running; a
`queue.Empty` timeout is converted to a TIMEOUT frame; a dequeued `None`
is converted to a GENERAL frame; otherwise the dequeued frame is returned. -/
def get (keep_running : Bool) (result : QueueGetResult) :
    Except String DaliFrame :=
  if ! keep_running then Except.error "read thread is not running"
  else
    match result with
    | QueueGetResult.empty =>
      Except.ok { status := DaliStatus.TIMEOUT,
                  message := "queue is empty, timeout from get" }
    | QueueGetResult.item none =>
      Except.ok { status := DaliStatus.GENERAL,
                  message := "received None from queue" }
    | QueueGetResult.item (some rx_frame) => Except.ok rx_frame

/-- Embedding of the static `DaliInterface.build_command_string`
(`dali_interface.py`, lines 149-156): 8-bit frames become
`"Y" + hex data + CR`; everything else becomes command letter, decimal
priority, a space, hex length, the send-twice marker, hex data, CR. -/
def build_command_string (frame : DaliFrame) (is_query : Bool) : String :=
  if frame.length = 8 then "Y" ++ pyHexU frame.data ++ "\r"
  else
    (if is_query then "Q" else "S") ++ toString frame.priority ++ " " ++
      pyHexU frame.length ++ (if frame.send_twice then "+" else " ") ++
      pyHexU frame.data ++ "\r"

end DaliInterface

/-- Observable side effects of the serial binding's transmit/query protocol
(`serial.py`): flushing the receive queue, writing an encoded command string
to the serial port, one blocking `get` with a given timeout in seconds, and
an error-log entry.  Logging is an action, not control flow. -/
inductive Effect where
  | flush : Effect
  | write : String → Effect
  | getFrame : Int → Effect
  | logError : String → Effect
deriving DecidableEq, Repr

namespace DaliSerial

/-- Mismatch condition of `DaliSerial._check_loopback` (`serial.py`,
lines 156-163), embedded with all three disjuncts of the source, including
the inert self-comparison `loopback.length != loopback.length`. -/
def loopback_mismatch (frame loopback : DaliFrame) : Bool :=
  loopback.status != DaliStatus.LOOPBACK || loopback.data != frame.data ||
    loopback.length != loopback.length

/-- Embedding of `DaliSerial._check_loopback` as a trace: it performs one
`get(RECEIVE_TIMEOUT)` (the returned frame is supplied as the `loopback`
argument) and, on mismatch, logs an error; it returns nothing and never
raises. -/
def check_loopback (frame loopback : DaliFrame) : List Effect :=
  Effect.getFrame DaliInterface.RECEIVE_TIMEOUT ::
    (if loopback_mismatch frame loopback then
      [Effect.logError ("unexpected loopback for frame " ++ pyHexU frame.data)]
    else [])

/-- Embedding of `DaliSerial.transmit` (`serial.py`, lines 165-172) as a
trace.  `gets n` is the frame returned by the n-th `get` call issued while
the method runs (the engine is running, so each `get` returns a frame). -/
def transmit (frame : DaliFrame) (block : Bool) (gets : Nat → DaliFrame) :
    List Effect :=
  Effect.write (DaliInterface.build_command_string frame false) ::
    (if block then
      check_loopback frame (gets 0) ++
        (if frame.send_twice then check_loopback frame (gets 1) else [])
    else [])

/-- Embedding of `DaliSerial.query_reply` (`serial.py`, lines 174-183) as a
trace plus the returned reply frame.  `gets n` is the frame returned by the
n-th `get` call issued while the method runs. -/
def query_reply (request : DaliFrame) (gets : Nat → DaliFrame) :
    List Effect × DaliFrame :=
  (Effect.flush ::
      Effect.write (DaliInterface.build_command_string request true) ::
      (check_loopback request (gets 0) ++
        (if request.send_twice then check_loopback request (gets 1) else []) ++
        [Effect.getFrame DaliInterface.RECEIVE_TIMEOUT]),
    gets (if request.send_twice then 2 else 1))

end DaliSerial

/-- Claim C1: for every integer length with 0 <= length <= 32 and every data
value, the status classifier returns (LOOPBACK, "LOOPBACK FRAME") when the
loopback flag is true and (FRAME, "NORMAL FRAME") when it is false. -/
theorem claim_C1_classifier_valid_range (length data : Int)
    (h0 : 0 ≤ length) (h32 : length ≤ 32) :
    DaliSerial.get_status_and_last_error length data true =
        (DaliStatus.LOOPBACK, "LOOPBACK FRAME") ∧
      DaliSerial.get_status_and_last_error length data false =
        (DaliStatus.FRAME, "NORMAL FRAME") := by
  constructor <;>
    simp [DaliSerial.get_status_and_last_error, DaliSerial.MAX_BIT_LENGTH, h0, h32]

/-- Witness for claim C1 at length 16, data 0xABCD. -/
theorem claim_C1_classifier_valid_range_witness :
    (0 ≤ (16 : Int) ∧ (16 : Int) ≤ 32) ∧
      (DaliSerial.get_status_and_last_error 16 0xABCD true =
          (DaliStatus.LOOPBACK, "LOOPBACK FRAME") ∧
        DaliSerial.get_status_and_last_error 16 0xABCD false =
          (DaliStatus.FRAME, "NORMAL FRAME")) :=
  ⟨⟨by decide, by decide⟩,
    claim_C1_classifier_valid_range 16 0xABCD (by decide) (by decide)⟩

/-- Helper: the status classifier never produces `GENERAL`; that status is
reserved for the decoder's `ValueError` path and for `get` receiving `None`. -/
theorem get_status_never_general (length data : Int) (loopback : Bool) :
    (DaliSerial.get_status_and_last_error length data loopback).1 ≠
      DaliStatus.GENERAL := by
  unfold DaliSerial.get_status_and_last_error
  repeat' split
  all_goals exact fun h => DaliStatus.noConfusion h

/-- Claim C3 (code_bug evidence): `parse "{1}"` reaches `payload[8]` with a
1-character payload whose hex parse succeeded, so the `IndexError` escapes
the `except ValueError` handler and the call raises instead of returning a
frame (`none` in this embedding). -/
theorem claim_C3_parse_raises_on_short_payload :
    DaliSerial.parse "{1}" = none := by decide

/-- Claim C4 counterexample: the well-braced line with a non-hex length
field keeps the timestamp parsed before the failure, so the returned
GENERAL/"value error" frame does not have all fields at their zero
defaults (its timestamp is 1/1000, not 0). -/
theorem claim_C4_counterexample :
    DaliSerial.parse "{00000001>XY 00000000}" =
        some { timestamp := (1 : Rat) / 1000, status := DaliStatus.GENERAL,
               message := "value error" } ∧
      ¬ ((1 : Rat) / 1000 = 0) := by
  refine ⟨?_, by norm_num⟩
  have h : DaliSerial.parse "{00000001>XY 00000000}" =
      some { timestamp := ((1 : Int) : Rat) / 1000, status := DaliStatus.GENERAL,
             message := "value error" } := rfl
  rw [h]
  norm_num

/-- Claim C4 as amended: whenever `parse` returns a frame with status
GENERAL (the `ValueError` path), the message is "value error", `data` is
still 0, and `priority`/`send_twice` hold their defaults; the timestamp and
length fields keep whatever values were parsed before the failure (zero
defaults if not yet assigned), so they need not be zero. -/
theorem claim_C4_amended_value_error_frame (line : String) (f : DaliFrame)
    (hp : DaliSerial.parse line = some f)
    (hs : f.status = DaliStatus.GENERAL) :
    f.message = "value error" ∧ f.data = 0 ∧ f.priority = 2 ∧
      f.send_twice = false := by
  simp only [DaliSerial.parse] at hp
  split at hp
  · injection hp with h
    subst h
    simp
  · split at hp
    · exact Option.noConfusion hp
    · split at hp
      · injection hp with h
        subst h
        simp
      · split at hp
        · injection hp with h
          subst h
          simp
        · injection hp with h
          subst h
          exact absurd hs (get_status_never_general _ _ _)

/-- Witness for claim C4 as amended, at the specification's own example
input "garbage" (no braces). -/
theorem claim_C4_amended_value_error_frame_witness :
    (DaliSerial.parse "garbage" =
          some { status := DaliStatus.GENERAL, message := "value error" } ∧
        ({ status := DaliStatus.GENERAL, message := "value error" } :
            DaliFrame).status = DaliStatus.GENERAL) ∧
      (({ status := DaliStatus.GENERAL, message := "value error" } :
            DaliFrame).message = "value error" ∧
        ({ status := DaliStatus.GENERAL, message := "value error" } :
            DaliFrame).data = 0 ∧
        ({ status := DaliStatus.GENERAL, message := "value error" } :
            DaliFrame).priority = 2 ∧
        ({ status := DaliStatus.GENERAL, message := "value error" } :
            DaliFrame).send_twice = false) :=
  ⟨⟨by decide, by decide⟩,
    claim_C4_amended_value_error_frame "garbage" _ (by decide) (by decide)⟩

/-- Claim C10: the well-braced line whose length field is "-5" parses
successfully: the hex field parser accepts the sign, the classifier sends
the negative length (below 0x81 and outside [0, 32]) to OK, and the frame
carries the negative length. -/
theorem claim_C10_negative_length_parses_ok :
    DaliSerial.parse "{00000000X-5 00000000}" =
        some { timestamp := 0, length := -5, data := 0,
               status := DaliStatus.OK, message := "OK" } ∧
      (-5 : Int) < 0 := by
  refine ⟨?_, by decide⟩
  have h : DaliSerial.parse "{00000000X-5 00000000}" =
      some { timestamp := ((0 : Int) : Rat) / 1000, length := -5, data := 0,
             status := DaliStatus.OK, message := "OK" } := rfl
  rw [h]
  norm_num

/-- Claim C2: `build_command_string` produces `"Y" + hex data + CR` exactly
for 8-bit frames and otherwise the Q/S command letter, the decimal priority,
a space, the uppercase unpadded hex length, `'+'` or a space for send-twice,
the uppercase unpadded hex data, and CR; in particular the two concrete
encodings from the specification hold. -/
theorem claim_C2_build_command_string (frame : DaliFrame) (is_query : Bool) :
    DaliInterface.build_command_string frame is_query =
        (if frame.length = 8 then "Y" ++ pyHexU frame.data ++ "\r"
          else
            (if is_query then "Q" else "S") ++ toString frame.priority ++ " " ++
              pyHexU frame.length ++ (if frame.send_twice then "+" else " ") ++
              pyHexU frame.data ++ "\r") ∧
      DaliInterface.build_command_string
          { length := 16, data := 0xABCD, priority := 1, send_twice := true }
          true = "Q1 10+ABCD\r" ∧
      DaliInterface.build_command_string { length := 8, data := 0x12 } false =
        "Y12\r" :=
  ⟨rfl, by decide, by decide⟩

/-- Claim C5: with the engine running, a `get` whose queue stays empty for
the whole timeout returns a TIMEOUT-status frame rather than raising; with
the engine not running, `get` raises an error to the caller whatever the
queue would have delivered. -/
theorem claim_C5_get_timeout_data_not_running_raises
    (result : DaliInterface.QueueGetResult) :
    DaliInterface.get true DaliInterface.QueueGetResult.empty =
        Except.ok { status := DaliStatus.TIMEOUT,
                    message := "queue is empty, timeout from get" } ∧
      DaliInterface.get false result =
        Except.error "read thread is not running" :=
  ⟨rfl, by cases result <;> rfl⟩

/-- Claim C9: a `None` dequeued by a running engine's `get` is neither
returned nor raised: it yields a GENERAL frame with message "received None
from queue", and `get` on a running engine always returns a frame. -/
theorem claim_C9_get_none_becomes_general_frame
    (result : DaliInterface.QueueGetResult) :
    DaliInterface.get true (DaliInterface.QueueGetResult.item none) =
        Except.ok { status := DaliStatus.GENERAL,
                    message := "received None from queue" } ∧
      ∃ f : DaliFrame, DaliInterface.get true result = Except.ok f := by
  refine ⟨rfl, ?_⟩
  cases result with
  | empty => exact ⟨_, rfl⟩
  | item o => cases o with
    | none => exact ⟨_, rfl⟩
    | some f => exact ⟨f, rfl⟩

/-- Claim C6: `query_reply` performs, in order, a queue flush, a write of
the request encoded with `is_query = true`, one loopback check (a second
one when `send_twice`), and finally returns the frame delivered by a `get`
with a 1-second timeout as the reply. -/
theorem claim_C6_query_reply_protocol (request : DaliFrame)
    (gets : Nat → DaliFrame) :
    (DaliSerial.query_reply request gets).1 =
        [Effect.flush,
            Effect.write (DaliInterface.build_command_string request true)] ++
          DaliSerial.check_loopback request (gets 0) ++
          (if request.send_twice then DaliSerial.check_loopback request (gets 1)
            else []) ++
          [Effect.getFrame 1] ∧
      (DaliSerial.query_reply request gets).2 =
        gets (if request.send_twice then 2 else 1) := by
  constructor
  · simp [DaliSerial.query_reply, DaliInterface.RECEIVE_TIMEOUT]
  · rfl

/-- Claim C7: the loopback check reads one frame via `get` with a 1-second
timeout and logs a mismatch exactly when that frame's status is not
LOOPBACK or its data differs from the transmitted frame's data (the
source's third disjunct compares a field to itself and is inert); a
mismatch only adds a log action — it never raises, and the query still
returns its reply regardless. -/
theorem claim_C7_loopback_check_mismatch (frame reply : DaliFrame) :
    (DaliSerial.loopback_mismatch frame reply = true ↔
        (reply.status ≠ DaliStatus.LOOPBACK ∨ reply.data ≠ frame.data)) ∧
      (DaliSerial.loopback_mismatch frame reply = false →
        DaliSerial.check_loopback frame reply = [Effect.getFrame 1]) ∧
      (DaliSerial.loopback_mismatch frame reply = true →
        DaliSerial.check_loopback frame reply =
          [Effect.getFrame 1,
            Effect.logError
              ("unexpected loopback for frame " ++ pyHexU frame.data)]) ∧
      (∀ gets : Nat → DaliFrame,
        (DaliSerial.query_reply frame gets).2 =
          gets (if frame.send_twice then 2 else 1)) := by
  refine ⟨?_, ?_, ?_, fun gets => rfl⟩
  · simp [DaliSerial.loopback_mismatch]
  · intro h
    simp [DaliSerial.check_loopback, h, DaliInterface.RECEIVE_TIMEOUT]
  · intro h
    simp [DaliSerial.check_loopback, h, DaliInterface.RECEIVE_TIMEOUT]

/-- Witness for claim C7: a matching loopback echo (status LOOPBACK, same
data) produces no log action, and an echo with different data produces
exactly one log action. -/
theorem claim_C7_loopback_check_mismatch_witness :
    (DaliSerial.loopback_mismatch { data := 5 }
          { data := 5, status := DaliStatus.LOOPBACK } = false ∧
        DaliSerial.check_loopback { data := 5 }
          { data := 5, status := DaliStatus.LOOPBACK } = [Effect.getFrame 1]) ∧
      (DaliSerial.loopback_mismatch { data := 7 }
          { data := 8, status := DaliStatus.LOOPBACK } = true ∧
        DaliSerial.check_loopback { data := 7 }
          { data := 8, status := DaliStatus.LOOPBACK } =
          [Effect.getFrame 1,
            Effect.logError
              ("unexpected loopback for frame " ++ pyHexU (7 : Int))]) :=
  ⟨⟨by decide, (claim_C7_loopback_check_mismatch _ _).2.1 (by decide)⟩,
    ⟨by decide, (claim_C7_loopback_check_mismatch _ _).2.2.1 (by decide)⟩⟩

/-- Claim C8: for every data value, length code 0x82 (and 0x83) classifies
as TIMING with the failing bit index `data & 0xFF` and the measured time
`(data >> 8) & 0xFFFFF` microseconds in the message; in particular
0x82 with data 0x030A reports bit 10 (= 0x0A) and time 3 (= 0x03) usec. -/
theorem claim_C8_timing_codes (data : Int) (loopback : Bool) :
    DaliSerial.get_status_and_last_error 0x82 data loopback =
        (DaliStatus.TIMING,
          "ERROR TIMING: START - BIT: " ++ toString (pyAndOnes data 8) ++
            " - TIME: " ++ toString (pyAndOnes (pyShr data 8) 20) ++ " USEC") ∧
      DaliSerial.get_status_and_last_error 0x83 data loopback =
        (DaliStatus.TIMING,
          "ERROR TIMING: DATA - BIT: " ++ toString (pyAndOnes data 8) ++
            " - TIME: " ++ toString (pyAndOnes (pyShr data 8) 20) ++ " USEC") ∧
      pyAndOnes (0x030A : Int) 8 = 0x0A ∧
      pyAndOnes (pyShr (0x030A : Int) 8) 20 = 0x03 ∧
      DaliSerial.get_status_and_last_error 0x82 0x030A false =
        (DaliStatus.TIMING, "ERROR TIMING: START - BIT: 10 - TIME: 3 USEC") := by
  refine ⟨?_, ?_, by decide, by decide, by decide⟩ <;>
    simp [DaliSerial.get_status_and_last_error, DaliSerial.MAX_BIT_LENGTH,
      DaliSerial.TIMEOUT_CODE, DaliSerial.BAD_START_BIT_TIMING,
      DaliSerial.BAD_DATA_BIT_TIMING]
